import Mathlib

/-!
Shallow embedding of the serverless movies CRUD handler
(src/api/movies.rs) and verification of its specification claims.

The handler reads two environment variables, parses the query string of
the inbound URI, dispatches on the HTTP method, issues at most one
outbound HTTP call against the Supabase REST convention, and returns a
JSON envelope.  Outbound effects are modelled by recording the list of
issued requests and by an oracle function mapping each outbound request
to its result; faults propagated with the Rust question-mark operator
are modelled with an Except error.
-/

namespace MoviesApi

/-- JSON values, as produced and consumed by serde_json.  Numeric
literals are carried as their source text; no claim depends on numeric
semantics. -/
inductive Json where
  | null : Json
  | bool (b : Bool) : Json
  | num (lit : String) : Json
  | str (s : String) : Json
  | arr (elems : List Json) : Json
  | obj (fields : List (String × Json)) : Json

/-- Modelled from the spec: the Movie record lives in src/movie.rs,
which is not part of the provided sources.  The spec describes it as an
external pass-through payload shape that this system never validates or
interprets, so a movie is represented by its JSON value. -/
abbrev Movie := Json

/-- Rust str::split for a single-character separator: splitting the
empty list yields one empty piece, as in Rust. -/
def splitChar (sep : Char) : List Char → List (List Char)
  | [] => [[]]
  | c :: cs =>
    if c = sep then [] :: splitChar sep cs
    else
      match splitChar sep cs with
      | [] => [[c]]
      | h :: t => (c :: h) :: t

/-- String-level wrapper for splitChar. -/
def rsplit (sep : Char) (s : String) : List String :=
  (splitChar sep s.data).map (fun cs => String.mk cs)

/-- One query fragment split at the character = : the Rust code takes
the first piece as key and the second as value, defaulting both to the
empty string. -/
def pairOf (s : String) : String × String :=
  let parts := rsplit '=' s
  (parts.getD 0 "", parts.getD 1 "")

/-- The empty string map, as HashMap::new. -/
def qEmpty : String → Option String := fun _ => none

/-- HashMap insert: a later insert for the same key overwrites. -/
def qInsert (m : String → Option String) (k v : String) : String → Option String :=
  fun x => if x = k then some v else m x

/-- Collecting an iterator of pairs into a HashMap inserts in order, so
later occurrences of a key overwrite earlier ones. -/
def collect (ps : List (String × String)) : String → Option String :=
  ps.foldl (fun m p => qInsert m p.1 p.2) qEmpty

/-- The query fragments of a URI: the text after the first question
mark, split at ampersands, dropping empty fragments. -/
def queryFragments (uri : String) : List String :=
  (rsplit '&' ((rsplit '?' uri).getD 1 "")).filter (fun s => !s.isEmpty)

/-- The query_parts map of the handler. -/
def queryParts (uri : String) : String → Option String :=
  collect ((queryFragments uri).map pairOf)

/-- Rust str::parse::<usize>: an optional leading plus sign followed by
at least one ASCII digit; anything else, and values that overflow the
64-bit usize, fail. -/
def parseUsize (s : String) : Option Nat :=
  let t := match s.data with
    | '+' :: rest => rest
    | cs => cs
  if t.isEmpty then none
  else if t.all (fun c => c.isDigit) then
    let n := t.foldl (fun n c => n * 10 + (c.toNat - 48)) 0
    if n < 2 ^ 64 then some n else none
  else none

/-- The MovieInput body shape of the create operation: title is a
required String, the remaining fields are optional.  The f64
popularity is carried as its numeric literal; no claim touches its
numeric value. -/
structure MovieInput where
  title : String
  tagline : Option String
  popularity : Option String
  release_date : Option String
deriving DecidableEq

/-- The MovieUpdate body shape of the update operation: all four
fields optional. -/
structure MovieUpdate where
  title : Option String
  tagline : Option String
  popularity : Option String
  release_date : Option String
deriving DecidableEq

/-- First JSON object field with the given name, as serde reads it. -/
def lookupField (fields : List (String × Json)) (k : String) : Option Json :=
  (fields.find? (fun p => p.1 == k)).map (fun p => p.2)

/-- The recognized field names of MovieInput and MovieUpdate. -/
def recognizedFields : List String :=
  ["title", "tagline", "popularity", "release_date"]

/-- serde rejects a JSON object that repeats a recognized field. -/
def hasDupField (fields : List (String × Json)) : Bool :=
  recognizedFields.any (fun k => 2 ≤ ((fields.map Prod.fst).filter (fun n => n == k)).length)

/-- serde for an Option String field: absent or null is None, a string
is Some, any other value is a type error (outer none). -/
def readOptStr (fields : List (String × Json)) (k : String) : Option (Option String) :=
  match lookupField fields k with
  | none => some none
  | some Json.null => some none
  | some (Json.str s) => some (some s)
  | some _ => none

/-- serde for an Option f64 field: absent or null is None, a number is
Some, any other value is a type error. -/
def readOptNum (fields : List (String × Json)) (k : String) : Option (Option String) :=
  match lookupField fields k with
  | none => some none
  | some Json.null => some none
  | some (Json.num lit) => some (some lit)
  | some _ => none

/-- serde_json deserialization of MovieInput from a JSON value (the
map case of the derived Deserialize; serde also accepts positional
sequences, which no body in the claims exercises).  The required title
must be present and be a string. -/
def parseMovieInput (v : Json) : Option MovieInput :=
  match v with
  | Json.obj fields =>
    if hasDupField fields then none
    else
      match lookupField fields "title" with
      | some (Json.str t) =>
        (readOptStr fields "tagline").bind fun tg =>
        (readOptNum fields "popularity").bind fun pp =>
        (readOptStr fields "release_date").map fun rd =>
        MovieInput.mk t tg pp rd
      | _ => none
  | _ => none

/-- serde_json deserialization of MovieUpdate from a JSON value: all
four fields optional. -/
def parseMovieUpdate (v : Json) : Option MovieUpdate :=
  match v with
  | Json.obj fields =>
    if hasDupField fields then none
    else
      (readOptStr fields "title").bind fun t =>
      (readOptStr fields "tagline").bind fun tg =>
      (readOptNum fields "popularity").bind fun pp =>
      (readOptStr fields "release_date").map fun rd =>
      MovieUpdate.mk t tg pp rd
  | _ => none

/-- Inbound HTTP methods; other covers every verb the match falls
through on (PUT, HEAD, ...). -/
inductive HMethod where
  | GET : HMethod
  | POST : HMethod
  | PATCH : HMethod
  | DELETE : HMethod
  | other (name : String) : HMethod
deriving DecidableEq

/-- The inbound request body as seen through hyper to_bytes followed by
serde_json: reading the byte stream can fault, the bytes can fail to be
JSON, or they denote a JSON value. -/
inductive Body where
  | readFail : Body
  | invalid : Body
  | json (v : Json) : Body

/-- An inbound request: method, full URI text, body. -/
structure Request where
  method : HMethod
  uri : String
  body : Body

/-- The JSON payload attached to an outbound request. -/
inductive OutPayload where
  | input (p : MovieInput) : OutPayload
  | update (p : MovieUpdate) : OutPayload
deriving DecidableEq

/-- One outbound HTTP request to the backend. -/
structure OutboundRequest where
  method : HMethod
  url : String
  headers : List (String × String)
  body : Option OutPayload
deriving DecidableEq

/-- A received backend response: its status success flag, the
content-range header when present and readable, the result of
deserializing the body as Vec<Movie>, and the result of reading the
body as text. -/
structure HttpResponse where
  success : Bool
  contentRange : Option String
  jsonMovies : Option (List Movie)
  textBody : Option String

/-- Outcome of send(): transport failure or a response. -/
inductive SendResult where
  | fail : SendResult
  | ok (resp : HttpResponse) : SendResult

/-- Faults propagated out of the handler with the question-mark
operator. -/
inductive Fault where
  | transport : Fault
  | bodyRead : Fault
  | deserialize : Fault
deriving DecidableEq

/-- What one invocation did: the outbound calls it issued, in order,
and its result (a JSON envelope, or a propagated fault). -/
structure HandlerResult where
  calls : List OutboundRequest
  result : Except Fault Json

/-- The two environment values; an absent variable reads as the empty
string via unwrap_or_default. -/
structure Config where
  supabase_url : String
  supabase_key : String

/-- The configuration-error envelope returned when either environment
value is empty. -/
def configErrorEnvelope : Json :=
  Json.obj
    [("error", Json.str "Backend environment variables are not set"),
     ("details", Json.str "Check Vercel Dashboard > Settings > Environment Variables")]

/-- The envelope for an unsupported HTTP method. -/
def unsupportedEnvelope : Json :=
  Json.obj [("error", Json.str "Unsupported method.")]

/-- The envelope for a body that does not deserialize. -/
def invalidJsonEnvelope : Json :=
  Json.obj [("error", Json.str "Invalid JSON payload.")]

/-- The envelope for a missing or empty id query parameter. -/
def missingIdEnvelope : Json :=
  Json.obj [("error", Json.str "Missing id query parameter.")]

/-- The envelope for an update body with no recognized field present. -/
def noFieldsEnvelope : Json :=
  Json.obj [("error", Json.str "No fields provided for update.")]

/-- The envelope for a failed insert: details carries the backend body
text, or Unknown error when the text could not be read. -/
def insertFailedEnvelope (details : String) : Json :=
  Json.obj [("error", Json.str "Supabase insert failed."), ("details", Json.str details)]

/-- The envelope for a failed update. -/
def updateFailedEnvelope (details : String) : Json :=
  Json.obj [("error", Json.str "Supabase update failed."), ("details", Json.str details)]

/-- The envelope for a failed delete. -/
def deleteFailedEnvelope (details : String) : Json :=
  Json.obj [("error", Json.str "Supabase delete failed."), ("details", Json.str details)]

/-- The list response: the movie array and the parsed total. -/
def listEnvelope (movies : List Movie) (total : Nat) : Json :=
  Json.obj [("movies", Json.arr movies), ("total", Json.num (toString total))]

/-- The create and update success envelope: the first returned record,
or null when the backend returned none. -/
def movieEnvelope (movies : List Movie) : Json :=
  Json.obj [("movie", (movies.head?).getD Json.null)]

/-- The delete success envelope. -/
def deletedEnvelope : Json :=
  Json.obj [("status", Json.str "deleted")]

/-- The auth headers every outbound call carries. -/
def authHeaders (key : String) : List (String × String) :=
  [("apikey", key), ("Authorization", "Bearer " ++ key)]

/-- The outbound GET request built for the list/search operation:
select all, the optional ilike title filter, the unconditional
ordering, the Range window and the exact-count preference. -/
def buildGetRequest (cfg : Config) (uri : String) : OutboundRequest :=
  let qp := queryParts uri
  let searchTerm := (qp "query").getD ""
  let page := ((qp "page").bind parseUsize).getD 0
  let itemsPerPage := 8
  let from_ := page * itemsPerPage
  let to_ := from_ + itemsPerPage - 1
  let targetUrl :=
    cfg.supabase_url ++ "/rest/v1/movies?select=*"
      ++ (if !searchTerm.isEmpty then "&title=ilike.*" ++ searchTerm ++ "*" else "")
      ++ "&order=release_date.desc"
  { method := HMethod.GET
    url := targetUrl
    headers := authHeaders cfg.supabase_key
      ++ [("Range", toString from_ ++ "-" ++ toString to_), ("Prefer", "count=exact")]
    body := none }

/-- The total reported by the list operation: the text after the last
slash of the content-range header (the whole header when it has no
slash), "0" when the header is absent, parsed as usize with default
0. -/
def listTotal (contentRange : Option String) : Nat :=
  let totalCount := (contentRange.map (fun v => (rsplit '/' v).getLastD "")).getD "0"
  (parseUsize totalCount).getD 0

/-- The total as the specification words it: the integer parsed from
the suffix of the Content-Range header after the slash, defaulting to 0
when the header is absent or the suffix does not parse as an
integer.  Stated separately from listTotal so the code can be proved a
refinement of the spec sentence. -/
def totalSpec (contentRange : Option String) : Nat :=
  match contentRange with
  | none => 0
  | some v =>
    match parseUsize ((rsplit '/' v).getLastD "") with
    | none => 0
    | some n => n

/-- The handler of src/api/movies.rs: check configuration, parse the
query string, dispatch on the method, issue at most one outbound call
through the backend oracle, and shape the response. -/
def handler (cfg : Config) (req : Request) (backend : OutboundRequest → SendResult) :
    HandlerResult :=
  if cfg.supabase_url.isEmpty || cfg.supabase_key.isEmpty then
    { calls := [], result := Except.ok configErrorEnvelope }
  else
    let qp := queryParts req.uri
    match req.method with
    | HMethod.GET =>
      let outReq := buildGetRequest cfg req.uri
      match backend outReq with
      | SendResult.fail => { calls := [outReq], result := Except.error Fault.transport }
      | SendResult.ok resp =>
        match resp.jsonMovies with
        | none => { calls := [outReq], result := Except.error Fault.deserialize }
        | some movies =>
          { calls := [outReq],
            result := Except.ok (listEnvelope movies (listTotal resp.contentRange)) }
    | HMethod.POST =>
      match req.body with
      | Body.readFail => { calls := [], result := Except.error Fault.bodyRead }
      | Body.invalid => { calls := [], result := Except.ok invalidJsonEnvelope }
      | Body.json v =>
        match parseMovieInput v with
        | none => { calls := [], result := Except.ok invalidJsonEnvelope }
        | some payload =>
          let outReq : OutboundRequest :=
            { method := HMethod.POST
              url := cfg.supabase_url ++ "/rest/v1/movies"
              headers := authHeaders cfg.supabase_key ++ [("Prefer", "return=representation")]
              body := some (OutPayload.input payload) }
          match backend outReq with
          | SendResult.fail => { calls := [outReq], result := Except.error Fault.transport }
          | SendResult.ok resp =>
            if !resp.success then
              { calls := [outReq],
                result := Except.ok (insertFailedEnvelope (resp.textBody.getD "Unknown error")) }
            else
              { calls := [outReq],
                result := Except.ok (movieEnvelope (resp.jsonMovies.getD [])) }
    | HMethod.PATCH =>
      match qp "id" with
      | none => { calls := [], result := Except.ok missingIdEnvelope }
      | some idv =>
        if idv.isEmpty then { calls := [], result := Except.ok missingIdEnvelope }
        else
          match req.body with
          | Body.readFail => { calls := [], result := Except.error Fault.bodyRead }
          | Body.invalid => { calls := [], result := Except.ok invalidJsonEnvelope }
          | Body.json v =>
            match parseMovieUpdate v with
            | none => { calls := [], result := Except.ok invalidJsonEnvelope }
            | some payload =>
              if payload.title.isNone && payload.tagline.isNone
                  && payload.popularity.isNone && payload.release_date.isNone then
                { calls := [], result := Except.ok noFieldsEnvelope }
              else
                let outReq : OutboundRequest :=
                  { method := HMethod.PATCH
                    url := cfg.supabase_url ++ "/rest/v1/movies?id=eq." ++ idv
                    headers := authHeaders cfg.supabase_key
                      ++ [("Prefer", "return=representation")]
                    body := some (OutPayload.update payload) }
                match backend outReq with
                | SendResult.fail =>
                  { calls := [outReq], result := Except.error Fault.transport }
                | SendResult.ok resp =>
                  if !resp.success then
                    { calls := [outReq],
                      result := Except.ok
                        (updateFailedEnvelope (resp.textBody.getD "Unknown error")) }
                  else
                    { calls := [outReq],
                      result := Except.ok (movieEnvelope (resp.jsonMovies.getD [])) }
    | HMethod.DELETE =>
      match qp "id" with
      | none => { calls := [], result := Except.ok missingIdEnvelope }
      | some idv =>
        if idv.isEmpty then { calls := [], result := Except.ok missingIdEnvelope }
        else
          let outReq : OutboundRequest :=
            { method := HMethod.DELETE
              url := cfg.supabase_url ++ "/rest/v1/movies?id=eq." ++ idv
              headers := authHeaders cfg.supabase_key
              body := none }
          match backend outReq with
          | SendResult.fail => { calls := [outReq], result := Except.error Fault.transport }
          | SendResult.ok resp =>
            if !resp.success then
              { calls := [outReq],
                result := Except.ok (deleteFailedEnvelope (resp.textBody.getD "Unknown error")) }
            else
              { calls := [outReq], result := Except.ok deletedEnvelope }
    | HMethod.other _ =>
      { calls := [], result := Except.ok unsupportedEnvelope }

/-! ### Helper lemmas -/

theorem empty_isEmpty : ("" : String).isEmpty = true := rfl

theorem isEmpty_eq_false {s : String} (h : s ≠ "") : s.isEmpty = false := by
  cases hb : s.isEmpty
  · rfl
  · exact absurd ((String.isEmpty_iff s).mp hb) h

theorem foldl_qInsert (ps : List (String × String)) (m : String → Option String) (k : String) :
    List.foldl (fun m p => qInsert m p.1 p.2) m ps k =
      match (ps.filter (fun p => p.1 == k)).getLast? with
      | some p => some p.2
      | none => m k := by
  induction ps using List.reverseRecOn with
  | nil => rfl
  | append_singleton l a ih =>
    rw [List.foldl_append, List.filter_append]
    by_cases ha : a.1 = k
    · have hfa : List.filter (fun p => p.1 == k) [a] = [a] := by
        simp [List.filter_cons, ha]
      rw [hfa, List.getLast?_concat]
      simp [List.foldl, qInsert, ha]
    · have hfa : List.filter (fun p => p.1 == k) [a] = [] := by
        simp [List.filter_cons, ha]
      have hk : ¬ (k = a.1) := fun hkk => ha hkk.symm
      rw [hfa, List.append_nil]
      simp only [List.foldl, qInsert, if_neg hk]
      exact ih

theorem collect_applied (ps : List (String × String)) (k : String) :
    collect ps k = ((ps.filter (fun p => p.1 == k)).getLast?).map Prod.snd := by
  rw [collect, foldl_qInsert]
  cases (ps.filter (fun p => p.1 == k)).getLast? <;> rfl

theorem splitChar_eq_of_not_mem {sep : Char} {cs : List Char} (h : sep ∉ cs) :
    splitChar sep cs = [cs] := by
  induction cs with
  | nil => rfl
  | cons c cs ih =>
    have hc : ¬ c = sep := fun hcc => h (hcc ▸ List.mem_cons_self c cs)
    have hcs : sep ∉ cs := fun hm => h (List.mem_cons_of_mem c hm)
    simp only [splitChar, if_neg hc, ih hcs]

theorem pairOf_of_no_eq {s : String} (h : '=' ∉ s.data) : pairOf s = (s, "") := by
  have hs : rsplit '=' s = [s] := by
    simp [rsplit, splitChar_eq_of_not_mem h]
  simp [pairOf, hs]

theorem listTotal_eq_totalSpec (cr : Option String) : listTotal cr = totalSpec cr := by
  cases cr with
  | none => decide
  | some v =>
    simp only [listTotal, totalSpec, Option.map_some', Option.getD_some]
    cases parseUsize ((rsplit '/' v).getLastD "") <;> rfl

theorem handler_get_calls (cfg : Config) (uri : String) (b : Body)
    (backend : OutboundRequest → SendResult)
    (hu : cfg.supabase_url ≠ "") (hk : cfg.supabase_key ≠ "") :
    (handler cfg (Request.mk HMethod.GET uri b) backend).calls = [buildGetRequest cfg uri] := by
  have h1 := isEmpty_eq_false hu
  have h2 := isEmpty_eq_false hk
  cases hb : backend (buildGetRequest cfg uri) with
  | fail => simp [handler, h1, h2, hb]
  | ok resp => cases hj : resp.jsonMovies <;> simp [handler, h1, h2, hb, hj]

/-! ### Claims -/

/-- C1: whenever either configuration value is absent or empty (an
absent environment variable reads as the empty string), the handler
returns the configuration-error envelope, with fields error and
details, and issues zero outbound calls, for every method and request
body. -/
theorem claim1_config_error (cfg : Config) (req : Request)
    (backend : OutboundRequest → SendResult)
    (h : cfg.supabase_url = "" ∨ cfg.supabase_key = "") :
    handler cfg req backend = HandlerResult.mk [] (Except.ok configErrorEnvelope) := by
  rcases h with h | h <;> simp [handler, h, empty_isEmpty]

/-- Witness for C1 at a concrete request with an empty URL value. -/
theorem claim1_config_error_witness :
    handler (Config.mk "" "k") (Request.mk (HMethod.other "PUT") "/api/movies" Body.invalid)
        (fun _ => SendResult.fail)
      = HandlerResult.mk [] (Except.ok configErrorEnvelope) :=
  claim1_config_error (Config.mk "" "k")
    (Request.mk (HMethod.other "PUT") "/api/movies" Body.invalid)
    (fun _ => SendResult.fail) (Or.inl rfl)

/-- C2 counterexample: with both configuration values empty, a request
with an unsupported method is answered with the configuration-error
envelope, not with the unsupported-method envelope, so the claim fails
for that configuration state. -/
theorem claim2_counterexample :
    handler (Config.mk "" "") (Request.mk (HMethod.other "PUT") "/api/movies" Body.invalid)
        (fun _ => SendResult.fail)
      = HandlerResult.mk [] (Except.ok configErrorEnvelope)
    ∧ configErrorEnvelope ≠ unsupportedEnvelope := by
  refine ⟨rfl, fun h => ?_⟩
  simp [configErrorEnvelope, unsupportedEnvelope] at h

/-- C2 amended: a request whose method is not GET, POST, PATCH or
DELETE issues zero outbound calls in every configuration state; when
both configuration values are non-empty its result is the
unsupported-method envelope, and when either is empty its result is the
configuration-error envelope. -/
theorem claim2_unsupported_method (cfg : Config) (req : Request)
    (backend : OutboundRequest → SendResult) (name : String)
    (hm : req.method = HMethod.other name) :
    (handler cfg req backend).calls = []
    ∧ (cfg.supabase_url ≠ "" → cfg.supabase_key ≠ "" →
        (handler cfg req backend).result = Except.ok unsupportedEnvelope)
    ∧ (cfg.supabase_url = "" ∨ cfg.supabase_key = "" →
        (handler cfg req backend).result = Except.ok configErrorEnvelope) := by
  refine ⟨?_, ?_, ?_⟩
  · cases hb : (cfg.supabase_url.isEmpty || cfg.supabase_key.isEmpty) <;>
      simp [handler, hb, hm]
  · intro hu hk
    simp [handler, isEmpty_eq_false hu, isEmpty_eq_false hk, hm]
  · intro h
    rcases h with h | h <;> simp [handler, h, empty_isEmpty]

/-- Witness for C2 amended: a PUT with valid configuration yields the
unsupported-method envelope and no call. -/
theorem claim2_unsupported_method_witness :
    (handler (Config.mk "u" "k") (Request.mk (HMethod.other "PUT") "/x" Body.invalid)
        (fun _ => SendResult.fail)).calls = []
    ∧ (handler (Config.mk "u" "k") (Request.mk (HMethod.other "PUT") "/x" Body.invalid)
        (fun _ => SendResult.fail)).result = Except.ok unsupportedEnvelope := by
  obtain ⟨hc, hr, _⟩ :=
    claim2_unsupported_method (Config.mk "u" "k")
      (Request.mk (HMethod.other "PUT") "/x" Body.invalid)
      (fun _ => SendResult.fail) "PUT" rfl
  exact ⟨hc, hr (by decide) (by decide)⟩

/-- C3 counterexample: the empty JSON object is a syntactically valid
JSON object body, yet the create path rejects it locally with the
invalid-payload envelope and no outbound call, because the derived
MovieInput deserializer requires title; the same request with a string
title present does reach the backend. -/
theorem claim3_counterexample :
    handler (Config.mk "u" "k")
        (Request.mk HMethod.POST "/api/movies" (Body.json (Json.obj [])))
        (fun _ => SendResult.fail)
      = HandlerResult.mk [] (Except.ok invalidJsonEnvelope)
    ∧ (handler (Config.mk "u" "k")
        (Request.mk HMethod.POST "/api/movies"
          (Body.json (Json.obj [("title", Json.str "Dune")])))
        (fun _ => SendResult.fail)).calls ≠ [] := by
  exact ⟨rfl, by decide⟩

/-- C3 amended: title is locally validated on the create path: every
request whose body is a valid JSON object with no title field is
rejected with the invalid-payload envelope and zero outbound calls,
before the backend is consulted. -/
theorem claim3_title_locally_required (cfg : Config) (uri : String)
    (backend : OutboundRequest → SendResult) (fields : List (String × Json))
    (hu : cfg.supabase_url ≠ "") (hk : cfg.supabase_key ≠ "")
    (ht : ∀ p ∈ fields, Prod.fst p ≠ "title") :
    handler cfg (Request.mk HMethod.POST uri (Body.json (Json.obj fields))) backend
      = HandlerResult.mk [] (Except.ok invalidJsonEnvelope) := by
  have hlook : lookupField fields "title" = none := by
    rw [lookupField, List.find?_eq_none.mpr]
    · rfl
    · intro p hp
      simpa using ht p hp
  have hparse : parseMovieInput (Json.obj fields) = none := by
    simp [parseMovieInput, hlook]
  simp [handler, isEmpty_eq_false hu, isEmpty_eq_false hk, hparse]

/-- Witness for C3 amended at a body holding only a tagline. -/
theorem claim3_title_locally_required_witness :
    handler (Config.mk "u" "k")
        (Request.mk HMethod.POST "/x" (Body.json (Json.obj [("tagline", Json.str "t")])))
        (fun _ => SendResult.fail)
      = HandlerResult.mk [] (Except.ok invalidJsonEnvelope) :=
  claim3_title_locally_required (Config.mk "u" "k") "/x" (fun _ => SendResult.fail)
    [("tagline", Json.str "t")] (by decide) (by decide) (by decide)

/-- C4: on the GET path a transport failure of send, and a failure to
deserialize the response body, propagate as unrecovered faults instead
of being wrapped in an error envelope; on the POST, PATCH and DELETE
paths a non-success backend status is recovered into an envelope with
fields error and details, with the placeholder text Unknown error
substituted when the response body text cannot be read. -/
theorem claim4_failure_asymmetry (cfg : Config)
    (hu : cfg.supabase_url ≠ "") (hk : cfg.supabase_key ≠ "") :
    (∀ uri b, (handler cfg (Request.mk HMethod.GET uri b) (fun _ => SendResult.fail)).result
        = Except.error Fault.transport)
    ∧ (∀ uri b resp, resp.jsonMovies = none →
        (handler cfg (Request.mk HMethod.GET uri b) (fun _ => SendResult.ok resp)).result
          = Except.error Fault.deserialize)
    ∧ (∀ uri v p resp, parseMovieInput v = some p → resp.success = false →
        (handler cfg (Request.mk HMethod.POST uri (Body.json v))
            (fun _ => SendResult.ok resp)).result
          = Except.ok (insertFailedEnvelope (resp.textBody.getD "Unknown error")))
    ∧ (∀ uri v p resp i, queryParts uri "id" = some i → i ≠ "" →
        parseMovieUpdate v = some p →
        p ≠ MovieUpdate.mk none none none none →
        resp.success = false →
        (handler cfg (Request.mk HMethod.PATCH uri (Body.json v))
            (fun _ => SendResult.ok resp)).result
          = Except.ok (updateFailedEnvelope (resp.textBody.getD "Unknown error")))
    ∧ (∀ uri b resp i, queryParts uri "id" = some i → i ≠ "" → resp.success = false →
        (handler cfg (Request.mk HMethod.DELETE uri b)
            (fun _ => SendResult.ok resp)).result
          = Except.ok (deleteFailedEnvelope (resp.textBody.getD "Unknown error"))) := by
  have h1 := isEmpty_eq_false hu
  have h2 := isEmpty_eq_false hk
  refine ⟨?_, ?_, ?_, ?_, ?_⟩
  · intro uri b
    simp [handler, h1, h2]
  · intro uri b resp hj
    simp [handler, h1, h2, hj]
  · intro uri v p resp hp hs
    simp [handler, h1, h2, hp, hs]
  · intro uri v p resp i hid hi hp hne hs
    obtain ⟨t, tg, pp, rd⟩ := p
    simp only [handler, h1, h2, hid, isEmpty_eq_false hi, hp, hs, Bool.or_self,
      Bool.false_eq_true, if_false]
    split
    · rename_i hcond
      exact absurd (by simp_all) hne
    · simp [hs]
  · intro uri b resp i hid hi hs
    simp [handler, h1, h2, hid, isEmpty_eq_false hi, hs]

/-- Witness for C4: a GET against a failing transport propagates the
fault, and a DELETE against a rejecting backend whose body text cannot
be read is recovered into the delete-failed envelope with the Unknown
error placeholder. -/
theorem claim4_failure_asymmetry_witness :
    (handler (Config.mk "u" "k") (Request.mk HMethod.GET "/x" Body.invalid)
        (fun _ => SendResult.fail)).result = Except.error Fault.transport
    ∧ (handler (Config.mk "u" "k") (Request.mk HMethod.DELETE "/x?id=7" Body.invalid)
        (fun _ => SendResult.ok (HttpResponse.mk false none none none))).result
      = Except.ok (deleteFailedEnvelope "Unknown error") := by
  obtain ⟨hget, _, _, _, hdel⟩ := claim4_failure_asymmetry (Config.mk "u" "k")
    (by decide) (by decide)
  exact ⟨hget "/x" Body.invalid,
    hdel "/x?id=7" Body.invalid (HttpResponse.mk false none none none) "7" (by decide)
      (by decide) rfl⟩

/-- The URL of the outbound list request, written as one append
chain. -/
theorem buildGetRequest_url (cfg : Config) (uri : String) :
    (buildGetRequest cfg uri).url
      = cfg.supabase_url ++ "/rest/v1/movies?select=*"
        ++ (if !((queryParts uri "query").getD "").isEmpty then
              "&title=ilike.*" ++ (queryParts uri "query").getD "" ++ "*"
            else "")
        ++ "&order=release_date.desc" := rfl

/-- The headers of the outbound list request. -/
theorem buildGetRequest_headers (cfg : Config) (uri : String) :
    (buildGetRequest cfg uri).headers
      = authHeaders cfg.supabase_key
        ++ [("Range",
              toString ((((queryParts uri "page").bind parseUsize).getD 0) * 8) ++ "-"
                ++ toString ((((queryParts uri "page").bind parseUsize).getD 0) * 8 + 7)),
            ("Prefer", "count=exact")] := by
  have harith : ∀ p : Nat, p * 8 + 8 - 1 = p * 8 + 7 := by omega
  simp [buildGetRequest, harith]

/-- C5: every GET issues exactly one outbound call whose Range header
spans the window from page times 8 to that value plus 7, where page is
the parsed page parameter, and the window is rows 0 to 7 when the page
parameter is missing or does not parse as a usize. -/
theorem claim5_pagination (cfg : Config) (backend : OutboundRequest → SendResult)
    (uri : String) (b : Body)
    (hu : cfg.supabase_url ≠ "") (hk : cfg.supabase_key ≠ "") :
    ∃ r, (handler cfg (Request.mk HMethod.GET uri b) backend).calls = [r]
      ∧ (∀ page, (queryParts uri "page").bind parseUsize = some page →
          ("Range", toString (page * 8) ++ "-" ++ toString (page * 8 + 7)) ∈ r.headers)
      ∧ ((queryParts uri "page").bind parseUsize = none →
          ("Range", toString 0 ++ "-" ++ toString 7) ∈ r.headers) := by
  refine ⟨buildGetRequest cfg uri, handler_get_calls cfg uri b backend hu hk, ?_, ?_⟩
  · intro page hp
    rw [buildGetRequest_headers, hp]
    simp [authHeaders]
  · intro hp
    rw [buildGetRequest_headers, hp]
    simp [authHeaders]

/-- Witness for C5: with the page parameter equal to 2 the single
outbound call carries the Range header for rows 16 to 23. -/
theorem claim5_pagination_witness :
    ∃ r, (handler (Config.mk "u" "k") (Request.mk HMethod.GET "/x?page=2" Body.invalid)
        (fun _ => SendResult.fail)).calls = [r]
      ∧ ("Range", "16-23") ∈ r.headers := by
  obtain ⟨r, hc, hsome, _⟩ := claim5_pagination (Config.mk "u" "k") (fun _ => SendResult.fail)
    "/x?page=2" Body.invalid (by decide) (by decide)
  exact ⟨r, hc, hsome 2 (by decide)⟩

/-- C6: every GET issues exactly one outbound call; its URL carries no
title filter and is exactly the select plus ordering URL when the query
parameter is empty or missing, contains the case-insensitive ilike
substring filter on title when the query parameter is non-empty, and
ends with the unconditional descending release_date ordering clause in
every case. -/
theorem claim6_filter_and_order (cfg : Config) (backend : OutboundRequest → SendResult)
    (uri : String) (b : Body)
    (hu : cfg.supabase_url ≠ "") (hk : cfg.supabase_key ≠ "") :
    ∃ r, (handler cfg (Request.mk HMethod.GET uri b) backend).calls = [r]
      ∧ ((queryParts uri "query").getD "" = "" →
          r.url = cfg.supabase_url ++ "/rest/v1/movies?select=*&order=release_date.desc")
      ∧ (∀ q, (queryParts uri "query").getD "" = q → q ≠ "" →
          List.IsInfix ("&title=ilike.*" ++ q ++ "*").data r.url.data)
      ∧ List.IsSuffix ("&order=release_date.desc" : String).data r.url.data := by
  refine ⟨buildGetRequest cfg uri, handler_get_calls cfg uri b backend hu hk, ?_, ?_, ?_⟩
  · intro hq
    rw [buildGetRequest_url, hq]
    rw [String.append_assoc, String.append_assoc]
    congr 1
  · intro q hq hne
    rw [buildGetRequest_url, hq, isEmpty_eq_false hne]
    exact ⟨(cfg.supabase_url ++ "/rest/v1/movies?select=*").data,
      ("&order=release_date.desc" : String).data,
      by simp [String.data_append]⟩
  · rw [buildGetRequest_url]
    exact ⟨(cfg.supabase_url ++ "/rest/v1/movies?select=*"
      ++ (if !((queryParts uri "query").getD "").isEmpty then
            "&title=ilike.*" ++ (queryParts uri "query").getD "" ++ "*"
          else "")).data,
      by simp [String.data_append]⟩

/-- Witness for C6: with query equal to matrix the single outbound
call has the matrix title filter inside its URL, and with no query
parameter the URL is exactly the unfiltered select plus ordering
URL. -/
theorem claim6_filter_and_order_witness :
    (∃ r, (handler (Config.mk "u" "k") (Request.mk HMethod.GET "/x?query=matrix" Body.invalid)
        (fun _ => SendResult.fail)).calls = [r]
      ∧ List.IsInfix ("&title=ilike.*matrix*" : String).data r.url.data)
    ∧ (∃ r, (handler (Config.mk "u" "k") (Request.mk HMethod.GET "/x" Body.invalid)
        (fun _ => SendResult.fail)).calls = [r]
      ∧ r.url = "u/rest/v1/movies?select=*&order=release_date.desc") := by
  constructor
  · obtain ⟨r, hc, _, hinf, _⟩ := claim6_filter_and_order (Config.mk "u" "k")
      (fun _ => SendResult.fail) "/x?query=matrix" Body.invalid (by decide) (by decide)
    exact ⟨r, hc, hinf "matrix" (by decide) (by decide)⟩
  · obtain ⟨r, hc, hempty, _, _⟩ := claim6_filter_and_order (Config.mk "u" "k")
      (fun _ => SendResult.fail) "/x" Body.invalid (by decide) (by decide)
    exact ⟨r, hc, hempty (by decide)⟩

/-- C7: a PATCH or DELETE whose id query parameter is absent or empty
is answered with the missing-id envelope and issues no outbound call,
for every body and backend, whenever the configuration is present. -/
theorem claim7_missing_id (cfg : Config) (uri : String) (b : Body)
    (backend : OutboundRequest → SendResult) (m : HMethod)
    (hu : cfg.supabase_url ≠ "") (hk : cfg.supabase_key ≠ "")
    (hm : m = HMethod.PATCH ∨ m = HMethod.DELETE)
    (hid : queryParts uri "id" = none ∨ queryParts uri "id" = some "") :
    handler cfg (Request.mk m uri b) backend
      = HandlerResult.mk [] (Except.ok missingIdEnvelope) := by
  have h1 := isEmpty_eq_false hu
  have h2 := isEmpty_eq_false hk
  rcases hm with hm | hm <;> subst hm <;> rcases hid with hid | hid <;>
    simp [handler, h1, h2, hid, empty_isEmpty]

/-- Witness for C7 at a PATCH with no query string at all. -/
theorem claim7_missing_id_witness :
    handler (Config.mk "u" "k") (Request.mk HMethod.PATCH "/x" (Body.json (Json.obj [])))
        (fun _ => SendResult.fail)
      = HandlerResult.mk [] (Except.ok missingIdEnvelope) :=
  claim7_missing_id (Config.mk "u" "k") "/x" (Body.json (Json.obj []))
    (fun _ => SendResult.fail) HMethod.PATCH (by decide) (by decide)
    (Or.inl rfl) (Or.inl (by decide))

/-- C8: a PATCH with a non-empty id whose body deserializes as a
MovieUpdate with all four fields absent is answered with the
no-fields envelope and issues no outbound call. -/
theorem claim8_no_fields (cfg : Config) (uri : String)
    (backend : OutboundRequest → SendResult) (v : Json) (i : String)
    (hu : cfg.supabase_url ≠ "") (hk : cfg.supabase_key ≠ "")
    (hid : queryParts uri "id" = some i) (hi : i ≠ "")
    (hp : parseMovieUpdate v = some (MovieUpdate.mk none none none none)) :
    handler cfg (Request.mk HMethod.PATCH uri (Body.json v)) backend
      = HandlerResult.mk [] (Except.ok noFieldsEnvelope) := by
  simp [handler, isEmpty_eq_false hu, isEmpty_eq_false hk, hid, isEmpty_eq_false hi, hp]

/-- Witness for C8: a PATCH with id 5 and the empty-object body stops
locally with the no-fields envelope. -/
theorem claim8_no_fields_witness :
    handler (Config.mk "u" "k") (Request.mk HMethod.PATCH "/x?id=5" (Body.json (Json.obj [])))
        (fun _ => SendResult.fail)
      = HandlerResult.mk [] (Except.ok noFieldsEnvelope) :=
  claim8_no_fields (Config.mk "u" "k") "/x?id=5" (fun _ => SendResult.fail)
    (Json.obj []) "5" (by decide) (by decide) (by decide) (by decide) (by decide)

/-- C9: every successful GET response carries as total exactly the
value the spec describes: the integer parsed from the Content-Range
header suffix after the slash, with 0 when the header is absent or the
suffix does not parse. -/
theorem claim9_total (cfg : Config) (uri : String) (b : Body)
    (resp : HttpResponse) (movies : List Movie)
    (hu : cfg.supabase_url ≠ "") (hk : cfg.supabase_key ≠ "")
    (hj : resp.jsonMovies = some movies) :
    (handler cfg (Request.mk HMethod.GET uri b) (fun _ => SendResult.ok resp)).result
      = Except.ok (listEnvelope movies (totalSpec resp.contentRange)) := by
  rw [← listTotal_eq_totalSpec]
  simp [handler, isEmpty_eq_false hu, isEmpty_eq_false hk, hj]

/-- Witness for C9: a Content-Range of 0-7/23 yields total 23, and an
absent header yields total 0. -/
theorem claim9_total_witness :
    (handler (Config.mk "u" "k") (Request.mk HMethod.GET "/x" Body.invalid)
        (fun _ => SendResult.ok (HttpResponse.mk true (some "0-7/23") (some []) none))).result
      = Except.ok (listEnvelope [] 23)
    ∧ (handler (Config.mk "u" "k") (Request.mk HMethod.GET "/x" Body.invalid)
        (fun _ => SendResult.ok (HttpResponse.mk true none (some []) none))).result
      = Except.ok (listEnvelope [] 0) :=
  ⟨claim9_total (Config.mk "u" "k") "/x" Body.invalid
      (HttpResponse.mk true (some "0-7/23") (some []) none) [] (by decide) (by decide) rfl,
    claim9_total (Config.mk "u" "k") "/x" Body.invalid
      (HttpResponse.mk true none (some []) none) [] (by decide) (by decide) rfl⟩

/-- C10: the parsed query mapping resolves every key to the value of
its last occurrence among the parsed fragments, and a fragment with no
equals sign parses as its whole text mapped to the empty string. -/
theorem claim10_query_parsing :
    (∀ uri k, queryParts uri k
        = ((((queryFragments uri).map pairOf).filter (fun p => p.1 == k)).getLast?).map
            Prod.snd)
    ∧ (∀ s, '=' ∉ s.data → pairOf s = (s, "")) :=
  ⟨fun uri k => collect_applied ((queryFragments uri).map pairOf) k,
    fun _ h => pairOf_of_no_eq h⟩

/-- Witness for C10: a duplicated key resolves to its last value and a
fragment with no equals sign maps to the empty string. -/
theorem claim10_query_parsing_witness :
    queryParts "/x?a=1&a=2" "a" = some "2" ∧ pairOf "b" = ("b", "") :=
  ⟨(claim10_query_parsing.1 "/x?a=1&a=2" "a").trans (by decide),
    claim10_query_parsing.2 "b" (by decide)⟩

end MoviesApi
